import Mathlib

/-!
Verification development for the `namelist_lattice` class of
`cime_ensemble_automator` (src/namelist_lattice.py).

The Python class keeps a registry of parameter dimensions
(`param_names`, `param_vectors`, `xml_mask`, `paramgroup_mask`,
`paramgroup_labels`), rebuilds a lattice of parameter-space points after
every `expand` call, and maps each lattice point to a clone directory
name plus a reconciled `user_nl_{component}` text file.

The embedding below follows the source line by line.  Values stored in
the lattice are modelled by `PV`, which records the numpy scalar kind
(`np.int64`, `np.float64`, `np.str_`) of the stored value; warnings
emitted by the source (`warnings.warn`) have no effect on state or on
raised errors and are omitted; file-system and subprocess side effects
of `create_clones` are external collaborators and only the pure
computations (directory-suffix naming, user_nl text reconciliation, the
lattice-readiness check) are modelled.
-/

namespace NamelistLattice

/-- numpy scalar values as they are stored in the record-array lattice:
`np.int64` (explicit integer values), `np.float64` (floats; also what
`np.linspace` produces), `np.str_` (string values, e.g. grouped
dimensions). -/
inductive PV where
  | npint (n : Int)
  | npfloat (q : ℚ)
  | npstr (s : String)
deriving DecidableEq

/-- Errors raised by the source (Python `assert` failures and explicit
`raise RuntimeError` sites, plus exceptions raised inside numpy or the
Python runtime).  The spec's error taxonomy names map onto these:
`DuplicateNameError` is the `'parameter with name .. already exists'`
assertion, `ConflictingArgumentsError` is the `call_err` assertion,
`ArityMismatchError` is the group values/names split-length assertion,
`CardinalityMismatchError` is the `np.vstack` failure on ragged
`param_vectors` in no-fill mode, `LatticeNotReadyError` is the
`'must add at least 2 dimensions'` RuntimeError of the `lattice`
property, and `latticeNotBuilt` is the `'Lattice must first be built'`
RuntimeError of `create_clones`. -/
inductive Err where
  | duplicateName
  | missingGroupLabel
  | duplicateGroupLabel
  | groupMemberDup
  | conflictingArguments
  | groupNeedsValues
  | lengthMismatch
  | arityMismatch
  | cardinalityMismatch
  | typeError
  | attributeError
  | indexError
  | latticeNotReady
  | latticeNotBuilt
deriving DecidableEq

/-- Python `''.join(s.split())`: removes every whitespace character. -/
def stripWS (s : String) : String :=
  ⟨s.data.filter (fun c => !c.isWhitespace)⟩

/-- Python `s.replace(',', '_')` (single-character pattern). -/
def replaceCommas (s : String) : String :=
  ⟨s.data.map (fun c => if c = ',' then '_' else c)⟩

/-- Python `s.replace('+', '')`. -/
def stripPlus (s : String) : String :=
  ⟨s.data.filter (fun c => c != '+')⟩

/-- helper for `splitComma`, accumulating the current chunk in reverse. -/
def splitCommaAux : List Char → List Char → List String
  | [], acc => [⟨acc.reverse⟩]
  | c :: rest, acc =>
    if c = ',' then ⟨acc.reverse⟩ :: splitCommaAux rest []
    else splitCommaAux rest (c :: acc)

/-- Python `s.split(',')`. -/
def splitComma (s : String) : List String :=
  splitCommaAux s.data []

/-- Python `''.join(e.split()).split('=')[0]`: the key of a `user_nl`
line, i.e. the whitespace-stripped text before the first `=`. -/
def extractKey (line : String) : String :=
  ⟨(stripWS line).data.takeWhile (fun c => c != '=')⟩

/-- Python `'__'.join(l)` / `' = '.join` style joining. -/
def joinSep (sep : String) : List String → String
  | [] => ""
  | [x] => x
  | x :: xs => x ++ sep ++ joinSep sep xs

/-- `np.array(xs)[np.where(mask)]`: the entries of `xs` at the positions
where `mask` is nonzero. -/
def maskSelect {α : Type} : List α → List Nat → List α
  | [], _ => []
  | _ :: _, [] => []
  | x :: xs, m :: ms =>
    if m ≠ 0 then x :: maskSelect xs ms else maskSelect xs ms

/-- swaps the first two entries of a list (used to express numpy's
`meshgrid` default `indexing='xy'` axis order, which swaps the first two
axes relative to `'ij'`). -/
def swap2 {α : Type} : List α → List α
  | a :: b :: t => b :: a :: t
  | l => l

/-- the Cartesian product of a list of lists, first factor varying
slowest, last factor fastest (row-major enumeration). -/
def cartProd {α : Type} : List (List α) → List (List α)
  | [] => [[]]
  | v :: vs => v.flatMap (fun x => (cartProd vs).map (x :: ·))

/-- `_build_lattice`, fill mode (lines 252-255):
`grid = np.meshgrid(*param_vectors)` (default `indexing='xy'`), then
`points = np.vstack(list(map(np.ravel, grid)))` and
`np.core.records.fromarrays(points, names=param_names)`.
`meshgrid` with `'xy'` indexing produces arrays of shape
`(n2, n1, n3, ..., nM)`, so the row-major raveling enumerates the
multi-indices with axis order `(i2, i1, i3, ..., iM)`, last fastest;
each record holds `(v1[i1], ..., vM[iM])`. -/
def fillLattice {α : Type} (vs : List (List α)) : List (List α) :=
  (cartProd (swap2 vs)).map swap2

/-- columnwise zip of equally long vectors: row `i` of the result is
`[v1[i], ..., vM[i]]`. -/
def zipAll {α : Type} : List (List α) → List (List α)
  | [] => []
  | [v] => v.map (fun x => [x])
  | v :: vs => ((zipAll vs).zip v).map (fun p => p.2 :: p.1)

/-- `_build_lattice`, no-fill mode (lines 256-258):
`points = np.vstack(param_vectors)` followed by
`records.fromarrays(points, names=param_names)`.  `np.vstack` raises
(`ValueError`) when the vectors do not all have the same length — the
spec's `CardinalityMismatchError`; on equal lengths the records are the
position-wise zip of the vectors. -/
def nofillLattice {α : Type} : List (List α) → Option (List (List α))
  | [] => none
  | v :: vs =>
    if vs.all (fun w => w.length = v.length) then some (zipAll (v :: vs))
    else none

/-- numpy boolean-mask selection `arr[mask]` (element kept where the
mask entry is true), assuming matching lengths. -/
def boolSelect {α : Type} : List α → List Bool → List α
  | [], _ => []
  | _ :: _, [] => []
  | x :: xs, b :: bs =>
    if b then x :: boolSelect xs bs else boolSelect xs bs

/-- the state of a `namelist_lattice` object (`__init__`, lines 45-53).
`paramgroup_labels` entries are `Option String` because the Python list
can in principle receive `None` entries from the unchecked tail of the
`group_labels` array. -/
structure namelist_lattice where
  component : String
  nofill : Bool
  param_vectors : List (List PV)
  param_names : List String
  xml_mask : List Nat
  paramgroup_mask : List Nat
  paramgroup_labels : List (Option String)
  clone_dirs : List String
  _lattice : Option (List (List PV))
deriving DecidableEq

/-- `namelist_lattice.__init__(component, nofill)`. -/
def init (component : String) (nofill : Bool) : namelist_lattice :=
  { component := component
    nofill := nofill
    param_vectors := []
    param_names := []
    xml_mask := []
    paramgroup_mask := []
    paramgroup_labels := []
    clone_dirs := []
    _lattice := none }

/-- lines 137-138: the member names of every grouped dimension already
in the registry:
`np.ravel([s.split(',') for s in np.array(param_names)[np.where(paramgroup_mask)]])`. -/
def all_groupparams (s : namelist_lattice) : List String :=
  ((maskSelect s.param_names s.paramgroup_mask).map splitComma).flatten

/-- lines 347-349 of `create_clones`: every parameter name, with
parameter groups expanded into their member names:
`np.hstack([params[np.where(1-mask)], np.ravel([s.split(',') for s in param_names[np.where(mask)]])])`. -/
def all_params (s : namelist_lattice) : List String :=
  maskSelect s.param_names (s.paramgroup_mask.map (fun m => 1 - m))
    ++ all_groupparams s

/-- `_build_lattice` (lines 241-258), as a transition on the object
state: on success `_lattice` is replaced by the freshly built lattice;
in no-fill mode with ragged `param_vectors`, `np.vstack` raises and the
object is left as it was (the error is returned alongside).
(The source only calls this with nonempty `param_vectors`; numpy dtype
coercion across heterogeneous vectors is not modelled, values keep
their `PV` kind.) -/
def _build_lattice (s : namelist_lattice) : namelist_lattice × Option Err :=
  if s.nofill = false then
    ({ s with _lattice := some (fillLattice s.param_vectors) }, none)
  else
    match nofillLattice s.param_vectors with
    | some pts => ({ s with _lattice := some pts }, none)
    | none => (s, some Err.cardinalityMismatch)

/-- the `lattice` property (lines 55-60): raises unless at least 2
dimensions have been added, otherwise returns `_lattice`. -/
def lattice (s : namelist_lattice) : Except Err (Option (List (List PV))) :=
  if s.param_names.length < 2 then Except.error Err.latticeNotReady
  else Except.ok s._lattice

/-- `filter` (lines 225-235): `self._lattice = self._lattice[mask]`.
Calling it with no lattice built (`None[mask]`) raises `TypeError`; a
boolean mask of the wrong length raises inside numpy (the spec's
`LengthMismatchError`). -/
def filter_op (s : namelist_lattice) (mask : List Bool) :
    namelist_lattice × Option Err :=
  match s._lattice with
  | none => (s, some Err.typeError)
  | some l =>
    if mask.length = l.length then
      ({ s with _lattice := some (boolSelect l mask) }, none)
    else (s, some Err.lengthMismatch)

/-- the lattice-readiness precondition of `create_clones`
(lines 320-321): `if self._lattice is None: raise RuntimeError(...)`. -/
def create_clones_check (s : namelist_lattice) : Option Err :=
  if s._lattice = none then some Err.latticeNotBuilt else none

/-- the `values` argument of `expand`, reflecting the two call shapes
the source supports: a (possibly wrapped by `np.atleast_2d`) list of
per-dimension value lists, or a flat list of comma-joined value strings
as used for grouped dimensions (whose entries the validation loop
whitespace-strips in place before `np.atleast_2d` sees them). -/
inductive Vals where
  | scalars (vss : List (List PV))
  | flat (vs : List String)
deriving DecidableEq

/-- `np.atleast_2d(values)`: a flat list of strings becomes a single
row; a list of lists is left as is. -/
def atleast2dOf : Vals → List (List PV)
  | Vals.scalars vss => vss
  | Vals.flat vs => [vs.map PV.npstr]

/-- line 131, `values[i] = ''.join(values[i].split())`: whitespace-strip
the `i`-th entry of the `values` argument in place.  Mirrors the Python
failure modes: `values` is `None` (`TypeError`), `values[i]` is not a
string because a 2-D list was passed with `group=True`
(`AttributeError` from `.split`), or `i` is out of range
(`IndexError`). -/
def cleanValueAt : Option Vals → Nat → Except Err (Option Vals)
  | none, _ => Except.error Err.typeError
  | some (Vals.scalars _), _ => Except.error Err.attributeError
  | some (Vals.flat vs), i =>
    match vs.get? i with
    | none => Except.error Err.indexError
    | some v => Except.ok (some (Vals.flat (vs.set i (stripWS v))))

/-- the in-place cleaning `names[i] = ''.join(names[i].split())` applied
by the validation loop when `group=True` (line 129-130). -/
def cleanNames (group : Bool) (names : List String) : List String :=
  names.map (fun n => if group then stripWS n else n)

/-- the `---------- check user input ----------` loop of `expand`
(lines 115-144), iterating over `names` with index `i`.  Checks run in
source order: the duplicate-name assertion against `param_names` (on the
raw name), then — only when `group=True` — whitespace-stripping of
`names[i]` and `values[i]`, the `group_labels[i]` presence and
uniqueness assertions, the assertion that no member name occurs among
the member names of an existing grouped dimension, and the
duplicate-member assertion.  The comma warning (lines 123-125) and all
other warnings have no effect and are omitted.  Returns the `values`
argument after its in-place cleaning. -/
def validateLoop (s : namelist_lattice) (group : Bool)
    (group_labels : List (Option String)) :
    Option Vals → Nat → List String → Except Err (Option Vals)
  | vals, _, [] => Except.ok vals
  | vals, i, name :: rest =>
    if name ∈ s.param_names then Except.error Err.duplicateName
    else if group then
      match cleanValueAt vals i with
      | Except.error e => Except.error e
      | Except.ok vals' =>
        match group_labels.get? i with
        | none => Except.error Err.indexError
        | some none => Except.error Err.missingGroupLabel
        | some (some lab) =>
          if some lab ∈ s.paramgroup_labels then
            Except.error Err.duplicateGroupLabel
          else if (splitComma (stripWS name)).any
              (fun g => (all_groupparams s).contains g) then
            Except.error Err.duplicateName
          else if (splitComma (stripWS name)).Nodup then
            validateLoop s group group_labels vals' (i + 1) rest
          else Except.error Err.groupMemberDup
    else validateLoop s group group_labels vals (i + 1) rest

/-- the group arity assertion for one dimension (lines 183-186):
`len(names[i].split(',')) == len(values[i][j].split(','))` for every
value `j`; a non-string value raises `AttributeError` from `.split`. -/
def arityCheckRow (n : String) : List PV → Except Err Unit
  | [] => Except.ok ()
  | PV.npstr sv :: rest =>
    if (splitComma n).length = (splitComma sv).length then arityCheckRow n rest
    else Except.error Err.arityMismatch
  | _ :: _ => Except.error Err.attributeError

/-- lines 181-186: the arity assertion over all (name, value-row)
pairs. -/
def arityCheck : List (String × List PV) → Except Err Unit
  | [] => Except.ok ()
  | (n, row) :: rest =>
    match arityCheckRow n row with
    | Except.error e => Except.error e
    | Except.ok _ => arityCheck rest

/-- the `---------- insert parameter into lattice ----------` part of
`expand` (lines 146-203).  `gen` stands for the value generation
`np.linspace(limits[i][0], limits[i][1], nsamples[i])` (resp. its
`logspace` variant, selected by the first argument); no claim depends on
the generated numbers, so it is passed in as a parameter and its results
are stored as `np.float64` values.  The quote-character warning loop
(lines 188-199) emits warnings only and is omitted.  Errors here are
raised before any mutation of the object. -/
def insertParams (gen : Bool → ℚ → ℚ → Nat → List ℚ)
    (s : namelist_lattice) (cnames : List String)
    (limits : Option (List (ℚ × ℚ))) (nsamples : Option (List Nat))
    (cvals : Option Vals) (logspace : Bool) (group : Bool) :
    Except Err namelist_lattice :=
  match cvals with
  | none =>
    match limits, nsamples with
    | some lims, some ns =>
      if group then Except.error Err.groupNeedsValues
      else if cnames.length = lims.length ∧ cnames.length = ns.length then
        Except.ok { s with
          param_names := s.param_names ++ cnames
          param_vectors := s.param_vectors ++
            (lims.zip ns).map
              (fun p => (gen logspace p.1.1 p.1.2 p.2).map PV.npfloat) }
      else Except.error Err.lengthMismatch
    | _, _ => Except.error Err.conflictingArguments
  | some v =>
    match limits, nsamples with
    | none, none =>
      let vss := atleast2dOf v
      if cnames.length = vss.length then
        match (if group then arityCheck (cnames.zip vss) else Except.ok ()) with
        | Except.error e => Except.error e
        | Except.ok _ =>
          Except.ok { s with
            param_names := s.param_names ++ cnames
            param_vectors := s.param_vectors ++ vss }
      else Except.error Err.lengthMismatch
    | _, _ => Except.error Err.conflictingArguments

/-- lines 205-216: extend `xml_mask` and `paramgroup_mask` by one flag
per added name, and — for groups — append the whole `group_labels`
array to `paramgroup_labels`. -/
def finishMasks (s1 : namelist_lattice) (n : Nat)
    (xmlchange group : Bool) (group_labels : List (Option String)) :
    namelist_lattice :=
  { s1 with
    xml_mask := s1.xml_mask ++ List.replicate n (if xmlchange then 1 else 0)
    paramgroup_mask :=
      s1.paramgroup_mask ++ List.replicate n (if group then 1 else 0)
    paramgroup_labels :=
      if group then s1.paramgroup_labels ++ group_labels
      else s1.paramgroup_labels }

/-- `expand` (lines 66-219) as a transition on the object state,
returning the state after the call together with the error it raised,
if any.  Python exceptions abort the call but keep whatever in-place
mutations already happened: every validation error fires before the
object is touched, while an error raised inside the final
`_build_lattice` leaves the freshly appended dimension in the
registry. -/
def expand (gen : Bool → ℚ → ℚ → Nat → List ℚ) (s : namelist_lattice)
    (names : List String) (limits : Option (List (ℚ × ℚ)))
    (nsamples : Option (List Nat)) (values : Option Vals)
    (logspace xmlchange group : Bool)
    (group_labels : List (Option String)) :
    namelist_lattice × Option Err :=
  match validateLoop s group group_labels values 0 names with
  | Except.error e => (s, some e)
  | Except.ok cvals =>
    match insertParams gen s (cleanNames group names) limits nsamples cvals
        logspace group with
    | Except.error e => (s, some e)
    | Except.ok s1 =>
      _build_lattice (finishMasks s1 names.length xmlchange group group_labels)

/-- Python `isinstance(v, str)` on a lattice record scalar: `np.str_`
subclasses `str`, the numeric numpy scalars do not. -/
def isinstance_str : PV → Bool
  | PV.npstr _ => true
  | _ => false

/-- Python `isinstance(v, int)` on a lattice record scalar: on Python 3
none of `np.int64`, `np.float64`, `np.str_` subclasses the
arbitrary-precision `int`, so this is false for every value a record
array can hold. -/
def isinstance_int : PV → Bool := fun _ => false

/-- Python `str()` of a lattice record scalar, as used by
`'{}_{}'.format(...)` and `'{} = {}'.format(...)`: `np.int64` prints its
decimal digits, `np.str_` prints itself, and an integral `np.float64`
prints with a trailing `.0` (float64 repr is shortest-roundtrip; for
integer values of magnitude below `10^16` that is exactly
`<digits>.0`, which covers every value the claims touch — the
non-integral fallback is not exercised). -/
def pyStr : PV → String
  | PV.npint n => toString n
  | PV.npstr s => s
  | PV.npfloat q =>
    if q.den = 1 then toString q.num ++ ".0" else toString q

/-- Python `'%e' % n` for a nonnegative integer `n` with at most 7
significant digits (beyond 7 digits Python rounds while this truncates;
all inputs used here are exact): mantissa digit, six decimals, `e+`,
two-digit exponent — e.g. `150000 ↦ "1.500000e+05"`. -/
def fmtExpPos (n : Nat) : String :=
  match Nat.toDigits 10 n with
  | [] => "0.000000e+00"
  | d :: rest =>
    let mant := (rest ++ List.replicate 6 '0').take 6
    let e := rest.length
    let estr := if e < 10 then "0" ++ toString e else toString e
    String.mk (d :: '.' :: mant) ++ "e+" ++ estr

/-- the `print_values` transformation of `create_clones`
(lines 389-396): strings get commas replaced by underscores; for other
values the source tests `isinstance(v, int) or isinstance(v, int)` —
the same test twice, and false for every numpy record scalar — so the
`'%e'`/strip-`'+'` branch for values `>= 1e5` is unreachable and the
value falls through to plain `str()` formatting in the suffix. -/
def printValue (v : PV) : String :=
  match v with
  | PV.npstr s => replaceCommas s
  | v =>
    if isinstance_int v || isinstance_int v then
      if pvGE1e5 v then stripPlus (fmtExpPV v) else pyStr v
    else pyStr v
where
  /-- `print_values[j] >= 1e5` for a numeric scalar. -/
  pvGE1e5 : PV → Bool
    | PV.npint n => 100000 ≤ n
    | PV.npfloat q => 100000 ≤ q
    | PV.npstr _ => false
  /-- `'%e' % print_values[j]` (dead branch; defined for integral
  values). -/
  fmtExpPV : PV → String
    | PV.npint n => if 0 ≤ n then fmtExpPos n.toNat else "-" ++ fmtExpPos (-n).toNat
    | PV.npfloat q =>
      if 0 ≤ q.num then fmtExpPos q.num.toNat else "-" ++ fmtExpPos (-q.num).toNat
    | PV.npstr s => s

/-- lines 343-344: `print_params` — the parameter-name list with each
grouped dimension's name replaced (positionally) by its label;
`str(None)` would print as `"None"`. -/
def print_params : List String → List Nat → List (Option String) → List String
  | [], _, _ => []
  | n :: ns, [], _ => n :: print_params ns [] []
  | n :: ns, m :: ms, labs =>
    if m ≠ 0 then
      match labs with
      | [] => "None" :: print_params ns ms []
      | some l :: ls => l :: print_params ns ms ls
      | none :: ls => "None" :: print_params ns ms ls
    else n :: print_params ns ms labs

/-- lines 399-401: the derived clone-directory suffix
`'__'.join('{}_{}'.format(print_params[j], print_values[j]) ...)`. -/
def cloneSuffix (pparams : List String) (pvals : List PV) : String :=
  joinSep "__" ((pparams.zip pvals).map (fun p => p.1 ++ "_" ++ printValue p.2))

/-- the marker comment line written before the engine's entries
(line 476), without its trailing newline. -/
def markerComment : String :=
  "! Following entries written by CESM_namelist_automator"

/-- the purge pass over `user_nl_{component}` (lines 461-469): keep
exactly the lines whose key is not owned by the current dimension set.
File content is modelled as the list of its lines (newline terminators
stripped; the source always rewrites whole lines). -/
def purgeLines (allP : List String) (content : List String) : List String :=
  content.filter (fun e => decide (extractKey e ∉ allP))

/-- the `key = value` lines appended for one lattice point
(lines 478-515): per dimension slot in registration order, nothing for
`xmlchange` slots (those go to `env_run.xml`), one line per member for a
grouped slot (`group_params[k] = group_values[k]`), else a single
`params[j] = values[j]` line.  A non-string grouped value would raise
from `.split` in the source; such rows contribute nothing here and no
claim reaches them. -/
def writeLines : List String → List Nat → List Nat → List PV → List String
  | n :: ns, g :: gs, x :: xs, v :: vs =>
    (if g ≠ 0 then
      (if x ≠ 0 then []
       else
         match v with
         | PV.npstr sv =>
           ((splitComma n).zip (splitComma sv)).map
             (fun p => p.1 ++ " = " ++ p.2)
         | _ => [])
     else if x ≠ 0 then []
     else [n ++ " = " ++ pyStr v]) ++ writeLines ns gs xs vs
  | _, _, _, _ => []

/-- the full text-file reconciliation for one lattice point
(lines 461-476 plus the loop): purge the owned keys, then append the
lines the source writes in `'a'` mode.  After the purge the source reads
`nl = f.read()` — but the file position is already at the truncation
point, so `nl` is always `''`, `''.endswith('\x5cn')` is false, and a
lone newline (an empty line) is always appended before the marker
comment. -/
def reconcileFile (allP : List String) (newLines : List String)
    (content : List String) : List String :=
  purgeLines allP content ++ [""] ++ [markerComment] ++ newLines

/-- reconciliation of one lattice point `values` of registry `s` against
text-file `content`. -/
def reconcilePoint (s : namelist_lattice) (values : List PV)
    (content : List String) : List String :=
  reconcileFile (all_params s)
    (writeLines s.param_names s.paramgroup_mask s.xml_mask values) content

/-- a concrete `gen` instantiation (the generated linspace values play
no role in any claim). -/
def gen0 : Bool → ℚ → ℚ → Nat → List ℚ := fun _ _ _ _ => []

/-- a fresh lattice after
`expand('p1,p2,p3', values=['1,1,1','2,2,2'], group=True, group_labels='grp')`. -/
def regGroup : namelist_lattice :=
  (expand gen0 (init "eam" false) ["p1,p2,p3"] none none
    (some (Vals.flat ["1,1,1", "2,2,2"])) false false true [some "grp"]).1

/-- a fresh fill-mode lattice after `expand('a', values=[1,2])`. -/
def regA : namelist_lattice :=
  (expand gen0 (init "eam" false) ["a"] none none
    (some (Vals.scalars [[PV.npint 1, PV.npint 2]])) false false false
    [none]).1

/-- `regA` after a further `expand('b', values=[10,20])`. -/
def regAB : namelist_lattice :=
  (expand gen0 regA ["b"] none none
    (some (Vals.scalars [[PV.npint 10, PV.npint 20]])) false false false
    [none]).1

/-- a fresh `nofill=True` lattice after `expand('a', values=[1,2])`. -/
def regNofillA : namelist_lattice :=
  (expand gen0 (init "eam" true) ["a"] none none
    (some (Vals.scalars [[PV.npint 1, PV.npint 2]])) false false false
    [none]).1

/-! ### helper lemmas: the fill-mode lattice -/

theorem sum_map_const {α : Type} (l : List α) (c : Nat) :
    (l.map (fun _ => c)).sum = l.length * c := by
  induction l with
  | nil => simp
  | cons x xs ih => simp [ih, Nat.succ_mul, Nat.add_comm]

theorem length_cartProd {α : Type} (vs : List (List α)) :
    (cartProd vs).length = (vs.map List.length).prod := by
  induction vs with
  | nil => simp [cartProd]
  | cons v vs ih =>
    simp only [cartProd, List.length_flatMap, Function.comp_def,
      List.length_map, ih, List.map_map, sum_map_const, List.map_cons,
      List.prod_cons]

theorem swap2_swap2 {α : Type} (l : List α) : swap2 (swap2 l) = l := by
  match l with
  | [] => rfl
  | [a] => rfl
  | a :: b :: t => rfl

theorem map_length_swap2_prod {α : Type} (vs : List (List α)) :
    ((swap2 vs).map List.length).prod = (vs.map List.length).prod := by
  match vs with
  | [] => rfl
  | [v] => rfl
  | a :: b :: t => simp [swap2, Nat.mul_left_comm, Nat.mul_comm]

theorem length_fillLattice {α : Type} (vs : List (List α)) :
    (fillLattice vs).length = (vs.map List.length).prod := by
  simp [fillLattice, length_cartProd, map_length_swap2_prod]

theorem mem_cartProd {α : Type} (vs : List (List α)) (p : List α) :
    p ∈ cartProd vs ↔ List.Forall₂ (fun x v => x ∈ v) p vs := by
  induction vs generalizing p with
  | nil =>
    simp [cartProd, List.forall₂_nil_right_iff]
  | cons v vs ih =>
    simp only [cartProd, List.mem_flatMap, List.mem_map]
    constructor
    · rintro ⟨x, hx, q, hq, rfl⟩
      exact List.Forall₂.cons hx ((ih q).mp hq)
    · intro h
      match p, h with
      | x :: q, List.Forall₂.cons hx hq =>
        exact ⟨x, hx, q, (ih q).mpr hq, rfl⟩

theorem forall₂_swap2 {α β : Type} (R : α → β → Prop)
    (p : List α) (vs : List β) :
    List.Forall₂ R (swap2 p) (swap2 vs) ↔ List.Forall₂ R p vs := by
  match p, vs with
  | [], [] => simp [swap2]
  | [], [a] => simp [swap2]
  | [], a :: b :: t => simp [swap2, List.forall₂_nil_left_iff]
  | [x], [] => simp [swap2]
  | [x], [a] => simp [swap2]
  | [x], a :: b :: t =>
    simp [swap2, List.forall₂_cons, List.forall₂_nil_left_iff]
  | x :: y :: q, [] => simp [swap2, List.forall₂_nil_right_iff]
  | x :: y :: q, [a] =>
    simp [swap2, List.forall₂_cons, List.forall₂_nil_right_iff]
  | x :: y :: q, a :: b :: t =>
    simp only [swap2, List.forall₂_cons]
    tauto

theorem mem_fillLattice {α : Type} (vs : List (List α)) (p : List α) :
    p ∈ fillLattice vs ↔ List.Forall₂ (fun x v => x ∈ v) p vs := by
  simp only [fillLattice, List.mem_map]
  constructor
  · rintro ⟨q, hq, rfl⟩
    have := (mem_cartProd (swap2 vs) q).mp hq
    rw [← forall₂_swap2 (fun x v => x ∈ v) q (swap2 vs)] at this
    rwa [swap2_swap2] at this
  · intro h
    refine ⟨swap2 p, ?_, swap2_swap2 p⟩
    rw [mem_cartProd, forall₂_swap2]
    exact h

/-! ### helper lemmas: the no-fill lattice -/

theorem zipAll_length {α : Type} (v : List α) (vs : List (List α))
    (h : ∀ w ∈ vs, w.length = v.length) :
    (zipAll (v :: vs)).length = v.length := by
  induction vs generalizing v with
  | nil => simp [zipAll]
  | cons w t ih =>
    have hw : w.length = v.length := h w (by simp)
    have ht : ∀ u ∈ t, u.length = w.length := by
      intro u hu; rw [h u (by simp [hu]), hw]
    calc (zipAll (v :: w :: t)).length
        = ((zipAll (w :: t)).zip v).length := by simp [zipAll]
      _ = v.length := by
          simp [List.length_zip, ih w ht, hw]

theorem nofillLattice_eq_zipAll {α : Type} (vs : List (List α))
    (pts : List (List α)) (h : nofillLattice vs = some pts) :
    pts = zipAll vs := by
  match vs with
  | [] => simp [nofillLattice] at h
  | v :: t =>
    simp only [nofillLattice] at h
    by_cases hc : (t.all (fun w => w.length = v.length)) = true
    · rw [if_pos hc] at h
      exact (Option.some.inj h).symm
    · rw [if_neg hc] at h
      cases h

/-! ### helper lemmas: boolean-mask filtering -/

theorem boolSelect_sublist {α : Type} (l : List α) (mask : List Bool) :
    (boolSelect l mask).Sublist l := by
  induction l generalizing mask with
  | nil => simp [boolSelect]
  | cons x xs ih =>
    match mask with
    | [] => exact List.nil_sublist _
    | b :: bs =>
      by_cases hb : b
      · simpa [boolSelect, hb] using List.Sublist.cons₂ x (ih bs)
      · simpa [boolSelect, hb] using List.Sublist.cons x (ih bs)

theorem boolSelect_all_true {α : Type} (l : List α) :
    boolSelect l (List.replicate l.length true) = l := by
  induction l with
  | nil => rfl
  | cons x xs ih => simp [boolSelect, List.replicate, ih]

theorem boolSelect_all_false {α : Type} (l : List α) :
    boolSelect l (List.replicate l.length false) = [] := by
  induction l with
  | nil => rfl
  | cons x xs ih => simp [boolSelect, List.replicate, ih]

/-! ### helper lemmas: user_nl reconciliation -/

theorem purge_append (A C D : List String) :
    purgeLines A (C ++ D) = purgeLines A C ++ purgeLines A D := by
  simp [purgeLines, List.filter_append]

theorem purge_purge (A C : List String) :
    purgeLines A (purgeLines A C) = purgeLines A C := by
  simp [purgeLines, List.filter_filter]

theorem purge_single_keep (A : List String) (x : String)
    (h : extractKey x ∉ A) : purgeLines A [x] = [x] := by
  simp [purgeLines, h]

theorem purge_owned_nil (A N : List String)
    (hN : ∀ l ∈ N, extractKey l ∈ A) : purgeLines A N = [] := by
  simp only [purgeLines, List.filter_eq_nil_iff]
  intro a ha
  simpa using hN a ha

/-! ### helper lemmas: `expand` control flow -/

theorem validateLoop_scalar_fresh (s : namelist_lattice)
    (labs : List (Option String)) (vals : Option Vals)
    (i : Nat) (names : List String)
    (h : ∀ n ∈ names, n ∉ s.param_names) :
    validateLoop s false labs vals i names = Except.ok vals := by
  induction names generalizing i with
  | nil => rfl
  | cons n rest ih =>
    have hn : n ∉ s.param_names := h n (by simp)
    simp only [validateLoop, hn, if_false, Bool.false_eq_true, ite_false]
    exact ih (i + 1) (fun m hm => h m (by simp [hm]))

theorem insertParams_ok_fields (gen : Bool → ℚ → ℚ → Nat → List ℚ)
    (s : namelist_lattice) (cn : List String)
    (lims : Option (List (ℚ × ℚ))) (ns : Option (List Nat))
    (cv : Option Vals) (lg grp : Bool) (s1 : namelist_lattice)
    (h : insertParams gen s cn lims ns cv lg grp = Except.ok s1) :
    s1.param_names = s.param_names ++ cn ∧ s1.nofill = s.nofill ∧
    s1.xml_mask = s.xml_mask ∧ s1.paramgroup_mask = s.paramgroup_mask ∧
    s1.paramgroup_labels = s.paramgroup_labels ∧
    s1._lattice = s._lattice := by
  unfold insertParams at h
  rcases cv with _ | v
  · rcases lims with _ | l
    · cases h
    · rcases ns with _ | n
      · cases h
      · simp only [] at h
        split at h
        · cases h
        · split at h
          · cases h
            simp
          · cases h
  · rcases lims with _ | l
    · rcases ns with _ | n
      · simp only [] at h
        split at h
        · split at h
          · cases h
          · cases h
            simp
        · cases h
      · cases h
    · cases h

theorem build_ok_fields (t s' : namelist_lattice)
    (h : _build_lattice t = (s', none)) :
    s'.param_names = t.param_names ∧ s'.nofill = t.nofill ∧
    s'.param_vectors = t.param_vectors ∧
    (t.nofill = false → s'._lattice = some (fillLattice t.param_vectors)) ∧
    (t.nofill = true → s'._lattice = some (zipAll t.param_vectors)) := by
  unfold _build_lattice at h
  split at h
  · rename_i hf
    injection h with h1 h2
    subst h1
    simp [hf]
  · rename_i hf
    split at h
    · rename_i pts hpts
      injection h with h1 h2
      subst h1
      have hnf : t.nofill = true := by
        cases hb : t.nofill
        · exact absurd hb hf
        · rfl
      simp [hnf, nofillLattice_eq_zipAll t.param_vectors pts hpts]
    · cases h

theorem build_err (t s' : namelist_lattice) (e : Err)
    (h : _build_lattice t = (s', some e)) :
    s' = t ∧ e = Err.cardinalityMismatch := by
  unfold _build_lattice at h
  split at h
  · cases h
  · split at h
    · cases h
    · injection h with h1 h2
      injection h2 with h2
      exact ⟨h1.symm, h2.symm⟩

theorem expand_ok_fields (gen : Bool → ℚ → ℚ → Nat → List ℚ)
    (s : namelist_lattice) (names : List String)
    (lims : Option (List (ℚ × ℚ))) (ns : Option (List Nat))
    (vals : Option Vals) (lg xml grp : Bool)
    (labs : List (Option String)) (s' : namelist_lattice)
    (h : expand gen s names lims ns vals lg xml grp labs = (s', none)) :
    s'.param_names = s.param_names ++ cleanNames grp names ∧
    s'.nofill = s.nofill ∧
    (s.nofill = false → s'._lattice = some (fillLattice s'.param_vectors)) ∧
    (s.nofill = true → s'._lattice = some (zipAll s'.param_vectors)) := by
  unfold expand at h
  cases hv : validateLoop s grp labs vals 0 names with
  | error e1 =>
    rw [hv] at h
    cases h
  | ok cv =>
    rw [hv] at h
    simp only [] at h
    cases hi : insertParams gen s (cleanNames grp names) lims ns cv lg grp with
    | error e1 =>
      rw [hi] at h
      cases h
    | ok s1 =>
      rw [hi] at h
      simp only [] at h
      obtain ⟨hn1, hf1, hx1, hg1, hl1, hlat1⟩ :=
        insertParams_ok_fields gen s _ lims ns cv lg grp s1 hi
      obtain ⟨hn2, hf2, hv2, hfill, hzip⟩ := build_ok_fields _ _ h
      have hmn : (finishMasks s1 names.length xml grp labs).param_names
          = s1.param_names := rfl
      have hmf : (finishMasks s1 names.length xml grp labs).nofill
          = s1.nofill := rfl
      have hmv : (finishMasks s1 names.length xml grp labs).param_vectors
          = s1.param_vectors := rfl
      refine ⟨?_, ?_, ?_, ?_⟩
      · rw [hn2, hmn, hn1]
      · rw [hf2, hmf, hf1]
      · intro hsf
        have : (finishMasks s1 names.length xml grp labs).nofill = false := by
          rw [hmf, hf1, hsf]
        rw [hfill this, hv2]
      · intro hsf
        have : (finishMasks s1 names.length xml grp labs).nofill = true := by
          rw [hmf, hf1, hsf]
        rw [hzip this, hv2]

/-! ### the claims -/

/-- Claim C1, counterexample.  The claim says that after adding grouped
dimension `p1,p2,p3` a subsequent attempt to add the scalar dimension
`p2` is rejected with `DuplicateNameError`.  In the source the
nested-member check (lines 137-141) only runs when the dimension being
added is itself a group, and the plain check (line 120) compares the
scalar name against the full stored name strings, so the scalar add
succeeds and `p2` joins the registry. -/
theorem expand_group_then_scalar_member_accepted :
    regGroup.param_names = ["p1,p2,p3"] ∧
    (expand gen0 (init "eam" false) ["p1,p2,p3"] none none
      (some (Vals.flat ["1,1,1", "2,2,2"])) false false true
      [some "grp"]).2 = none ∧
    (expand gen0 regGroup ["p2"] none none
      (some (Vals.scalars [[PV.npint 1, PV.npint 2]])) false false false
      [none]).2 = none ∧
    (expand gen0 regGroup ["p2"] none none
      (some (Vals.scalars [[PV.npint 1, PV.npint 2]])) false false false
      [none]).1.param_names = ["p1,p2,p3", "p2"] := by
  decide

/-- Claim C1, amended.  Adding a dimension whose (full) name equals an
already stored name fails with `DuplicateNameError` and leaves the
registry unchanged, regardless of the other arguments; adding a grouped
dimension one of whose member names equals a member name of an existing
grouped dimension likewise fails with `DuplicateNameError`; but a
scalar dimension whose name only occurs nested inside an existing
grouped dimension is NOT rejected — in particular, after adding grouped
dimension `p1,p2,p3`, adding scalar `p2` succeeds. -/
theorem expand_duplicate_name_checks :
    (∀ (gen : Bool → ℚ → ℚ → Nat → List ℚ) (s : namelist_lattice)
       (n : String) (lims : Option (List (ℚ × ℚ)))
       (ns : Option (List Nat)) (vals : Option Vals) (lg xml grp : Bool)
       (labs : List (Option String)), n ∈ s.param_names →
       expand gen s [n] lims ns vals lg xml grp labs
         = (s, some Err.duplicateName)) ∧
    expand gen0 regGroup ["q1,p2"] none none (some (Vals.flat ["7,7"]))
      false false true [some "g2"] = (regGroup, some Err.duplicateName) ∧
    (expand gen0 regGroup ["p2"] none none
      (some (Vals.scalars [[PV.npint 1, PV.npint 2]])) false false false
      [none]).2 = none := by
  refine ⟨?_, by decide, by decide⟩
  intro gen s n lims ns vals lg xml grp labs h
  unfold expand
  rw [show validateLoop s grp labs vals 0 [n] = Except.error Err.duplicateName
    from by simp [validateLoop, h]]

/-- witness for the amended C1 theorem at a concrete input. -/
theorem expand_duplicate_name_checks_witness :
    ("p1,p2,p3" ∈ regGroup.param_names) ∧
    expand gen0 regGroup ["p1,p2,p3"] none none none false false false
      [none] = (regGroup, some Err.duplicateName) :=
  ⟨by decide,
   expand_duplicate_name_checks.1 gen0 regGroup "p1,p2,p3" none none none
     false false false [none] (by decide)⟩

/-- Claim C2, counterexample.  Purge-then-append is not idempotent on
file content: the first application leaves a marker comment (and a
spurious blank line) which the second application keeps — the marker's
key is not an owned parameter — and then appends again. -/
theorem reconcile_not_idempotent :
    reconcilePoint regAB [PV.npint 1, PV.npint 10]
        (reconcilePoint regAB [PV.npint 1, PV.npint 10] ["x = 5"])
      ≠ reconcilePoint regAB [PV.npint 1, PV.npint 10] ["x = 5"] := by
  decide

/-- Claim C2, amended.  For owned keys that are wellformed parameter
names (nonempty, no whitespace, no `=`, no `!`) and appended lines whose
keys are all owned, a second reconciliation of the same point against
the once-reconciled content preserves every retained user line and
rewrites exactly the same owned `key = value` lines, but inserts one
extra blank line and one extra marker comment; consequently
reconciliation is never idempotent on full file content. -/
theorem reconcile_twice_appends_marker (A N C : List String)
    (hA : ∀ n ∈ A, n ≠ "" ∧
      ∀ c ∈ n.data, ¬c.isWhitespace ∧ c ≠ '=' ∧ c ≠ '!')
    (hN : ∀ l ∈ N, extractKey l ∈ A) :
    reconcileFile A N (reconcileFile A N C)
      = purgeLines A C ++ [""] ++ [markerComment] ++ [""]
        ++ [markerComment] ++ N ∧
    reconcileFile A N (reconcileFile A N C) ≠ reconcileFile A N C := by
  have h1 : purgeLines A [""] = [""] := by
    refine purge_single_keep A "" ?_
    intro hin
    exact (hA "" hin).1 rfl
  have h2 : purgeLines A [markerComment] = [markerComment] := by
    refine purge_single_keep A markerComment ?_
    intro hin
    have hbang : '!' ∈ (extractKey markerComment).data := by decide
    exact ((hA _ hin).2 '!' hbang).2.2 rfl
  have h3 : purgeLines A N = [] := purge_owned_nil A N hN
  have heq : reconcileFile A N (reconcileFile A N C)
      = purgeLines A C ++ [""] ++ [markerComment] ++ [""]
        ++ [markerComment] ++ N := by
    show purgeLines A (purgeLines A C ++ [""] ++ [markerComment] ++ N)
        ++ [""] ++ [markerComment] ++ N = _
    rw [purge_append, purge_append, purge_append, purge_purge, h1, h2, h3]
    simp
  refine ⟨heq, ?_⟩
  intro hcontra
  rw [heq] at hcontra
  have hlen := congrArg List.length hcontra
  simp only [reconcileFile, List.length_append, List.length_cons,
    List.length_nil] at hlen
  omega

/-- witness for the amended C2 theorem at a concrete input. -/
theorem reconcile_twice_appends_marker_witness :
    reconcileFile ["a"] ["a = 1"] (reconcileFile ["a"] ["a = 1"] ["x = 5"])
      = purgeLines ["a"] ["x = 5"] ++ [""] ++ [markerComment] ++ [""]
        ++ [markerComment] ++ ["a = 1"] ∧
    reconcileFile ["a"] ["a = 1"]
        (reconcileFile ["a"] ["a = 1"] ["x = 5"])
      ≠ reconcileFile ["a"] ["a = 1"] ["x = 5"] :=
  reconcile_twice_appends_marker ["a"] ["a = 1"] ["x = 5"] (by decide)
    (by decide)

/-- Claim C3.  In fill mode the built lattice is the full Cartesian
product of the per-dimension value sequences (a point is on the lattice
iff it selects one value from each dimension, and the point count is the
product of the per-dimension cardinalities); `_build_lattice` with
`nofill=False` always installs exactly this lattice (determinism /
stability across rebuilds); and for dimensions `a = [1,2]`,
`b = [10,20]` the lattice is exactly
`(1,10),(2,10),(1,20),(2,20)` in that order. -/
theorem fill_lattice_cartesian :
    (∀ vs : List (List PV), 2 ≤ vs.length →
       (fillLattice vs).length = (vs.map List.length).prod) ∧
    (∀ (vs : List (List PV)) (p : List PV),
       p ∈ fillLattice vs ↔ List.Forall₂ (fun x v => x ∈ v) p vs) ∧
    (∀ s : namelist_lattice, s.nofill = false →
       _build_lattice s
         = ({s with _lattice := some (fillLattice s.param_vectors)}, none)) ∧
    fillLattice [[PV.npint 1, PV.npint 2], [PV.npint 10, PV.npint 20]]
      = [[PV.npint 1, PV.npint 10], [PV.npint 2, PV.npint 10],
         [PV.npint 1, PV.npint 20], [PV.npint 2, PV.npint 20]] := by
  refine ⟨fun vs _ => length_fillLattice vs, mem_fillLattice, ?_, by decide⟩
  intro s h
  simp [_build_lattice, h]

/-- witness for C3 at a concrete input. -/
theorem fill_lattice_cartesian_witness :
    2 ≤ ([[PV.npint 1, PV.npint 2],
          [PV.npint 10, PV.npint 20]] : List (List PV)).length ∧
    (fillLattice [[PV.npint 1, PV.npint 2],
       [PV.npint 10, PV.npint 20]]).length
      = (([[PV.npint 1, PV.npint 2],
           [PV.npint 10, PV.npint 20]] : List (List PV)).map
          List.length).prod :=
  ⟨by decide, fill_lattice_cartesian.1 _ (by decide)⟩

/-- Claim C4.  In no-fill mode the build requires all per-dimension
value sequences to have equal cardinality: on ragged vectors
`nofillLattice` fails (`np.vstack` raises — the spec's
`CardinalityMismatchError`, surfaced by `_build_lattice`); on equal
cardinalities the lattice is the position-wise zip and its point count
is the common cardinality; `[1,2]` and `[10,20]` yield exactly
`(1,10),(2,20)`, while `[1,2]` and `[10,20,30]` fail. -/
theorem nofill_lattice_zip :
    (∀ (v : List PV) (vs : List (List PV)),
       ((∀ w ∈ vs, w.length = v.length) →
          nofillLattice (v :: vs) = some (zipAll (v :: vs)) ∧
          (zipAll (v :: vs)).length = v.length) ∧
       ((¬ ∀ w ∈ vs, w.length = v.length) →
          nofillLattice (v :: vs) = none)) ∧
    (∀ s : namelist_lattice, s.nofill = true →
       (nofillLattice s.param_vectors = none →
          _build_lattice s = (s, some Err.cardinalityMismatch)) ∧
       (∀ pts, nofillLattice s.param_vectors = some pts →
          _build_lattice s = ({s with _lattice := some pts}, none))) ∧
    nofillLattice [[PV.npint 1, PV.npint 2], [PV.npint 10, PV.npint 20]]
      = some [[PV.npint 1, PV.npint 10], [PV.npint 2, PV.npint 20]] ∧
    nofillLattice [[PV.npint 1, PV.npint 2],
      [PV.npint 10, PV.npint 20, PV.npint 30]] = none := by
  refine ⟨?_, ?_, by decide, by decide⟩
  · intro v vs
    constructor
    · intro h
      have hall : (vs.all (fun w => w.length = v.length)) = true := by
        simp only [List.all_eq_true, decide_eq_true_eq]
        exact h
      constructor
      · simp [nofillLattice, hall]
      · exact zipAll_length v vs h
    · intro h
      have hall : ¬(vs.all (fun w => w.length = v.length)) = true := by
        simp only [List.all_eq_true, decide_eq_true_eq]
        exact h
      simp [nofillLattice, hall]
  · intro s hs
    constructor
    · intro hn
      simp [_build_lattice, hs, hn]
    · intro pts hp
      simp [_build_lattice, hs, hp]

/-- witness for C4 at a concrete input. -/
theorem nofill_lattice_zip_witness :
    (∀ w ∈ ([[PV.npint 10, PV.npint 20]] : List (List PV)),
       w.length = ([PV.npint 1, PV.npint 2] : List PV).length) ∧
    nofillLattice [[PV.npint 1, PV.npint 2], [PV.npint 10, PV.npint 20]]
      = some (zipAll [[PV.npint 1, PV.npint 2],
          [PV.npint 10, PV.npint 20]]) ∧
    (zipAll [[PV.npint 1, PV.npint 2],
       [PV.npint 10, PV.npint 20]]).length = 2 :=
  ⟨by decide,
   ((nofill_lattice_zip.1 [PV.npint 1, PV.npint 2]
       [[PV.npint 10, PV.npint 20]]).1 (by decide)).1,
   ((nofill_lattice_zip.1 [PV.npint 1, PV.npint 2]
       [[PV.npint 10, PV.npint 20]]).1 (by decide)).2⟩

/-- Claim C5 (the code at the failing input).  The spec requires
numeric slot values at or above 100000 to be rendered in fixed
exponential form with the `+` stripped (the intended rendering of
`150000` is `1.500000e05`).  The source's numeric branch tests
`isinstance(v, int)` twice (line 393) and never `float`, and the lattice
record scalars are `np.int64`/`np.float64`, neither a Python `int`, so
the branch is dead: `150000` renders as `150000` (int64 lattice) or
`150000.0` (float64 lattice), never in exponential form. -/
theorem suffix_render_no_exponential :
    printValue (PV.npint 150000) = "150000" ∧
    printValue (PV.npfloat 150000) = "150000.0" ∧
    cloneSuffix (print_params ["a"] [0] []) [PV.npfloat 150000]
      = "a_150000.0" ∧
    stripPlus (fmtExpPos 150000) = "1.500000e05" ∧
    printValue (PV.npfloat 150000) ≠ stripPlus (fmtExpPos 150000) := by
  decide

/-- Claim C6, counterexample.  A `CardinalityMismatchError` raised while
adding a dimension does NOT leave the registry in its last valid state:
on a `nofill=True` lattice holding `a = [1,2]`, adding `b = [10,20,30]`
fails in the `_build_lattice` rebuild — after `param_names` and
`param_vectors` were already extended — so the partially added dimension
`b` remains registered. -/
theorem expand_cardinality_error_mutates_registry :
    regNofillA.param_names = ["a"] ∧
    (expand gen0 regNofillA ["b"] none none
      (some (Vals.scalars [[PV.npint 10, PV.npint 20, PV.npint 30]]))
      false false false [none]).2 = some Err.cardinalityMismatch ∧
    (expand gen0 regNofillA ["b"] none none
      (some (Vals.scalars [[PV.npint 10, PV.npint 20, PV.npint 30]]))
      false false false [none]).1.param_names = ["a", "b"] ∧
    (expand gen0 regNofillA ["b"] none none
      (some (Vals.scalars [[PV.npint 10, PV.npint 20, PV.npint 30]]))
      false false false [none]).1 ≠ regNofillA := by
  decide

/-- Claim C6, amended.  Every validation error raised by `expand` other
than `CardinalityMismatchError` (`DuplicateNameError`,
`ConflictingArgumentsError`, `ArityMismatchError`, the group-label and
length checks, ...) fires before the registry is mutated and leaves the
object exactly as it was; `CardinalityMismatchError`, raised by the
no-fill lattice rebuild at the end of the call, fires after the new
dimension was appended and leaves a partially added dimension behind. -/
theorem expand_validation_preserves_registry
    (gen : Bool → ℚ → ℚ → Nat → List ℚ)
    (s : namelist_lattice) (names : List String)
    (lims : Option (List (ℚ × ℚ))) (ns : Option (List Nat))
    (vals : Option Vals) (lg xml grp : Bool)
    (labs : List (Option String)) (s' : namelist_lattice) (e : Err)
    (h : expand gen s names lims ns vals lg xml grp labs = (s', some e))
    (hne : e ≠ Err.cardinalityMismatch) : s' = s := by
  unfold expand at h
  cases hv : validateLoop s grp labs vals 0 names with
  | error e1 =>
    rw [hv] at h
    injection h with h1 h2
    exact h1.symm
  | ok cv =>
    rw [hv] at h
    simp only [] at h
    cases hi : insertParams gen s (cleanNames grp names) lims ns cv lg grp with
    | error e1 =>
      rw [hi] at h
      injection h with h1 h2
      exact h1.symm
    | ok s1 =>
      rw [hi] at h
      simp only [] at h
      have := build_err _ _ _ h
      exact absurd this.2 hne

/-- witness for the amended C6 theorem at a concrete input
(a `ConflictingArgumentsError` call on the no-fill registry). -/
theorem expand_validation_preserves_registry_witness :
    expand gen0 regNofillA ["c"] none none none false false false [none]
      = ((expand gen0 regNofillA ["c"] none none none false false false
          [none]).1, some Err.conflictingArguments) ∧
    (expand gen0 regNofillA ["c"] none none none false false false
      [none]).1 = regNofillA :=
  ⟨by decide,
   expand_validation_preserves_registry gen0 regNofillA ["c"] none none
     none false false false [none] _ Err.conflictingArguments (by decide)
     (by decide)⟩

/-- Claim C7.  The `lattice` property fails with `LatticeNotReadyError`
exactly when fewer than 2 dimensions are registered; with 2 or more it
returns the stored `_lattice`, and after any successful `expand` the
stored `_lattice` is the lattice freshly built from the registry's
vectors (fill-mode Cartesian product, or no-fill zip). -/
theorem lattice_query_requires_two_dims :
    (∀ s : namelist_lattice, s.param_names.length < 2 →
       lattice s = Except.error Err.latticeNotReady) ∧
    (∀ s : namelist_lattice, 2 ≤ s.param_names.length →
       lattice s = Except.ok s._lattice) ∧
    (∀ (gen : Bool → ℚ → ℚ → Nat → List ℚ) (s : namelist_lattice)
       (names : List String) (lims : Option (List (ℚ × ℚ)))
       (ns : Option (List Nat)) (vals : Option Vals) (lg xml grp : Bool)
       (labs : List (Option String)) (s' : namelist_lattice),
       expand gen s names lims ns vals lg xml grp labs = (s', none) →
       (s.nofill = false →
          s'._lattice = some (fillLattice s'.param_vectors)) ∧
       (s.nofill = true →
          s'._lattice = some (zipAll s'.param_vectors))) := by
  refine ⟨?_, ?_, ?_⟩
  · intro s h
    simp [lattice, h]
  · intro s h
    rw [lattice, if_neg (by omega)]
  · intro gen s names lims ns vals lg xml grp labs s' h
    have := expand_ok_fields gen s names lims ns vals lg xml grp labs s' h
    exact ⟨this.2.2.1, this.2.2.2⟩

/-- witness for C7 at concrete inputs: the empty registry (then the
one-dimension registry) is refused, the two-dimension registry is
served. -/
theorem lattice_query_requires_two_dims_witness :
    (regA.param_names.length < 2 ∧
      lattice regA = Except.error Err.latticeNotReady) ∧
    (2 ≤ regAB.param_names.length ∧
      lattice regAB = Except.ok regAB._lattice) :=
  ⟨⟨by decide, lattice_query_requires_two_dims.1 regA (by decide)⟩,
   ⟨by decide, lattice_query_requires_two_dims.2.1 regAB (by decide)⟩⟩

/-- Claim C8.  Filtering a built lattice with a boolean mask of matching
length replaces it by the subsequence of points at the true positions,
preserving relative order (the result is a sublist); an all-true mask
returns the lattice unchanged in content and order, an all-false mask
returns the empty lattice. -/
theorem filter_mask_subsequence :
    (∀ (s : namelist_lattice) (l : List (List PV)) (mask : List Bool),
       s._lattice = some l → mask.length = l.length →
       filter_op s mask
         = ({s with _lattice := some (boolSelect l mask)}, none)) ∧
    (∀ (l : List (List PV)) (mask : List Bool),
       (boolSelect l mask).Sublist l) ∧
    (∀ l : List (List PV),
       boolSelect l (List.replicate l.length true) = l) ∧
    (∀ l : List (List PV),
       boolSelect l (List.replicate l.length false) = []) := by
  refine ⟨?_, boolSelect_sublist, boolSelect_all_true, boolSelect_all_false⟩
  intro s l mask h1 h2
  simp [filter_op, h1, h2]

/-- witness for C8 at a concrete input: filtering the 4-point `regAB`
lattice with mask `[true, false, true, false]`. -/
theorem filter_mask_subsequence_witness :
    regAB._lattice
      = some [[PV.npint 1, PV.npint 10], [PV.npint 2, PV.npint 10],
              [PV.npint 1, PV.npint 20], [PV.npint 2, PV.npint 20]] ∧
    ([true, false, true, false] : List Bool).length
      = ([[PV.npint 1, PV.npint 10], [PV.npint 2, PV.npint 10],
          [PV.npint 1, PV.npint 20],
          [PV.npint 2, PV.npint 20]] : List (List PV)).length ∧
    filter_op regAB [true, false, true, false]
      = ({regAB with _lattice := some (boolSelect
          [[PV.npint 1, PV.npint 10], [PV.npint 2, PV.npint 10],
           [PV.npint 1, PV.npint 20], [PV.npint 2, PV.npint 20]]
          [true, false, true, false])}, none) :=
  ⟨by decide, by decide,
   filter_mask_subsequence.1 regAB
     [[PV.npint 1, PV.npint 10], [PV.npint 2, PV.npint 10],
      [PV.npint 1, PV.npint 20], [PV.npint 2, PV.npint 20]]
     [true, false, true, false] (by decide) (by decide)⟩

/-- Claim C9.  When adding scalar dimensions (`group=False`) with fresh
names, supplying neither explicit `values` nor both `limits` and
`nsamples`, or supplying `values` together with `limits` or `nsamples`,
fails with `ConflictingArgumentsError`, and the failed call leaves the
registry unchanged. -/
theorem expand_values_limits_exclusive
    (gen : Bool → ℚ → ℚ → Nat → List ℚ) (s : namelist_lattice)
    (names : List String) (lims : Option (List (ℚ × ℚ)))
    (ns : Option (List Nat)) (vals : Option Vals) (lg xml : Bool)
    (labs : List (Option String))
    (hfresh : ∀ n ∈ names, n ∉ s.param_names)
    (hcase : (vals = none ∧ (lims = none ∨ ns = none)) ∨
      (vals ≠ none ∧ (lims ≠ none ∨ ns ≠ none))) :
    expand gen s names lims ns vals lg xml false labs
      = (s, some Err.conflictingArguments) := by
  unfold expand
  rw [validateLoop_scalar_fresh s labs vals 0 names hfresh]
  simp only []
  rcases hcase with ⟨rfl, hl⟩ | ⟨hv, hl⟩
  · rcases hl with rfl | rfl
    · rcases ns with _ | n <;> simp [insertParams]
    · rcases lims with _ | l <;> simp [insertParams]
  · rcases vals with _ | v
    · exact absurd rfl hv
    · rcases hl with hne | hne
      · rcases lims with _ | l
        · exact absurd rfl hne
        · simp [insertParams]
      · rcases ns with _ | n
        · exact absurd rfl hne
        · rcases lims with _ | l <;> simp [insertParams]

/-- witness for C9 at a concrete input (neither values nor limits and
nsamples supplied, on the one-dimension registry). -/
theorem expand_values_limits_exclusive_witness :
    (∀ n ∈ (["c"] : List String), n ∉ regA.param_names) ∧
    expand gen0 regA ["c"] none none none false false false [none]
      = (regA, some Err.conflictingArguments) :=
  ⟨by decide,
   expand_values_limits_exclusive gen0 regA ["c"] none none none false
     false [none] (by decide) (Or.inl ⟨rfl, Or.inl rfl⟩)⟩

/-- Claim C10.  The lattice-readiness precondition of `create_clones`
(`self._lattice is None`) is weaker than the `lattice` property's
two-dimension requirement: after one successful `expand` registering a
single dimension on a fresh object, `_lattice` is already built
non-null, `create_clones` passes its readiness check, yet querying the
`lattice` property in the same state fails with
`LatticeNotReadyError`. -/
theorem create_clones_weaker_readiness
    (gen : Bool → ℚ → ℚ → Nat → List ℚ) (s : namelist_lattice)
    (names : List String) (lims : Option (List (ℚ × ℚ)))
    (ns : Option (List Nat)) (vals : Option Vals) (lg xml grp : Bool)
    (labs : List (Option String)) (s' : namelist_lattice)
    (hempty : s.param_names = []) (hone : names.length = 1)
    (h : expand gen s names lims ns vals lg xml grp labs = (s', none)) :
    create_clones_check s' = none ∧ s'._lattice ≠ none ∧
    lattice s' = Except.error Err.latticeNotReady := by
  obtain ⟨hn, hf, hfill, hzip⟩ :=
    expand_ok_fields gen s names lims ns vals lg xml grp labs s' h
  have hlat : s'._lattice ≠ none := by
    cases hb : s.nofill
    · rw [hfill hb]; simp
    · rw [hzip hb]; simp
  have hlen : s'.param_names.length = 1 := by
    rw [hn, hempty]
    simp [cleanNames, hone]
  refine ⟨?_, hlat, ?_⟩
  · simp [create_clones_check, hlat]
  · simp [lattice, hlen]

/-- witness for C10 at a concrete input: the one-dimension registry
`regA`. -/
theorem create_clones_weaker_readiness_witness :
    ((init "eam" false).param_names = [] ∧
      expand gen0 (init "eam" false) ["a"] none none
        (some (Vals.scalars [[PV.npint 1, PV.npint 2]])) false false
        false [none] = (regA, none)) ∧
    (create_clones_check regA = none ∧ regA._lattice ≠ none ∧
      lattice regA = Except.error Err.latticeNotReady) :=
  ⟨⟨rfl, by decide⟩,
   create_clones_weaker_readiness gen0 (init "eam" false) ["a"] none none
     (some (Vals.scalars [[PV.npint 1, PV.npint 2]])) false false false
     [none] regA rfl rfl (by decide)⟩

end NamelistLattice
